import Mathlib

/-!
Verification development for the go-service repository (sales-api).

The core embedded here is the authentication and request-middleware
pipeline: the middleware composition mechanism of `foundation/web`
(`App.Handle`, `wrapMiddleware`), the `mid.Authenticate`, `mid.Authorize`,
`mid.Logger` and `mid.Errors` middlewares, the `Claims` role check, and an
abstract model of the token codec.

Handlers are embedded in state-passing style: a Go
`func(ctx, w, r) error` becomes `Ctx → Req → St → St × Option Err`, where
`St` records the observable effects (log lines, response writes, the
shutdown signal) as an event trace and `Err` is the closed error taxonomy
actually used by the middlewares (`errors.New`, `validate.FieldErrors`,
`*validate.RequestError`, `web.shutdownError`).
-/

namespace GoService

/-- Go `strings.Split(s, " ")` on the underlying character list: split at
every single space character, keeping empty fields; the empty string
yields one empty field, as in Go. -/
def splitSp : List Char → List (List Char)
  | [] => [[]]
  | c :: rest =>
    let r := splitSp rest
    if c = ' ' then [] :: r
    else
      match r with
      | [] => [[c]]
      | w :: ws => (c :: w) :: ws

/-- Go `strings.Split(s, " ")`. -/
def goSplitSpace (s : String) : List String :=
  (splitSp s.data).map (fun cs => String.mk cs)

/-- Go `strings.ToLower` (ASCII case folding, which is all the `"bearer"`
comparison in `mid.Authenticate` can be sensitive to). -/
def goToLower (s : String) : String :=
  String.mk (s.data.map Char.toLower)

/-- Space-separated join, mirroring how Go `fmt` renders a `[]string`
with the `%v` verb (inside brackets). -/
def joinSp : List String → String
  | [] => ""
  | [x] => x
  | x :: xs => x ++ " " ++ joinSp xs

/-- `business/sys/auth.Claims`: the authenticated-identity value object.
Fields follow the registered claims the repository actually sets
(`user_test.go`, `admin/main.go GenToken`): subject, issuer, issuedAt,
expiresAt (as abstract instants) plus the role list. -/
structure Claims where
  subject : String
  issuer : String
  issuedAt : Nat
  expiresAt : Nat
  roles : List String
deriving DecidableEq

/-- `foundation/web.Values`: the request-scoped values `App.Handle` stores
in the context (`Values{TraceID: ..., Now: ...}`; `StatusCode` starts at
its zero value). -/
structure Values where
  traceID : String
  now : Nat
  statusCode : Nat
deriving DecidableEq

/-- The request context, restricted to the two keys this pipeline uses:
the `web.Values` slot written by `App.Handle` and the `auth.Claims` slot
written by `mid.Authenticate`. A fresh request context has neither. -/
structure Ctx where
  values : Option Values
  claims : Option Claims
deriving DecidableEq

/-- The parts of an `*http.Request` the middlewares read.
`authorization` is the value of `r.Header.Get("authorization")` (the empty
string when the header is absent, as in Go). -/
structure Req where
  authorization : String
  method : String
  path : String
deriving DecidableEq

/-- The closed error taxonomy flowing through the handler chain:
`basic` is a plain `errors.New`/`fmt.Errorf` error carrying its message,
`requestError` is `*validate.RequestError` (message plus HTTP status),
`fieldErrors` is `validate.FieldErrors` carrying its rendered per-field
messages, and `shutdown` is the error built by `web.NewShutdownError`. -/
inductive Err where
  | basic (msg : String)
  | requestError (msg : String) (status : Nat)
  | fieldErrors (fields : String)
  | shutdown (msg : String)
deriving DecidableEq

/-- `validate.ErrorResponse`: the JSON error body (`Error` plus the
optional `Fields`). -/
structure ErrorResponse where
  error : String
  fields : Option String
deriving DecidableEq

/-- Observable effects of processing one request. -/
inductive Event where
  | pre (name : String)
  | post (name : String)
  | handlerRun (name : String)
  | logged (msg : String)
  | respond (status : Nat) (body : ErrorResponse)
deriving DecidableEq

/-- Per-request observable state: the ordered event trace plus whether
`App.SignalShutdown` has been invoked. -/
structure St where
  events : List Event
  shutdown : Bool
deriving DecidableEq

/-- Append one observable event. -/
def logEvent (s : St) (e : Event) : St :=
  { s with events := s.events ++ [e] }

/-- How many responses (status plus body) have been written in a trace. -/
def responseCount (s : St) : Nat :=
  (s.events.filter fun e =>
    match e with
    | .respond _ _ => true
    | _ => false).length

/-- `web.Handler`: `func(ctx context.Context, w http.ResponseWriter,
r *http.Request) error` in state-passing form. -/
abbrev Handler := Ctx → Req → St → St × Option Err

/-- `web.Middleware`: `func(Handler) Handler`. -/
abbrev Middleware := Handler → Handler

/-- Modelled from the spec: `foundation/web` `GetValues` is not under
`src/` (only its callers are); it returns the request-scoped `Values`
from the context, or an error when the transport layer did not set
them. -/
def GetValues (ctx : Ctx) : Except Err Values :=
  match ctx.values with
  | some v => Except.ok v
  | none => Except.error (Err.basic "web value missing from context")

/-- Modelled from the spec: `business/sys/auth` `SetClaims` is not under
`src/`; it stores the verified Claims in the request-scoped context. -/
def SetClaims (ctx : Ctx) (claims : Claims) : Ctx :=
  { ctx with claims := some claims }

/-- Modelled from the spec: `business/sys/auth` `GetClaims` is not under
`src/`; it returns the Claims from the request-scoped context, or an
error when absent. -/
def GetClaims (ctx : Ctx) : Except Err Claims :=
  match ctx.claims with
  | some c => Except.ok c
  | none => Except.error (Err.basic "claims missing from context")

/-- `web.NewShutdownError`. -/
def NewShutdownError (msg : String) : Err :=
  Err.shutdown msg

/-- `web.IsShutdown`: whether an error is a `*shutdownError`. -/
def IsShutdown (err : Err) : Bool :=
  match err with
  | .shutdown _ => true
  | _ => false

/-- The message an error renders via its `Error()` method. -/
def errMessage : Err → String
  | .basic m => m
  | .requestError m _ => m
  | .fieldErrors f => f
  | .shutdown m => m

/-- Modelled from the spec: `foundation/web` `Respond` is not under
`src/`; it writes exactly one response (body plus HTTP status) to the
response writer. Modelled as always succeeding. -/
def Respond (s : St) (body : ErrorResponse) (status : Nat) : St :=
  logEvent s (Event.respond status body)

/-- Modelled from the spec: `business/sys/auth` `Claims.Authorized` is not
under `src/` (only its caller `mid.Authorize` is). Spec 4.1: true iff the
claims role set intersects the required roles — a membership test over the
two role lists. -/
def Claims.Authorized (c : Claims) (roles : List String) : Bool :=
  c.roles.any fun has => roles.any fun want => has == want

/-- `mid.Authenticate` (src/business/web/mid/auth.go): parse the
`authorization` header as `bearer <token>` (case-insensitive scheme,
exactly two space-separated parts), else fail 401; validate the token,
else fail 401; on success put the Claims in the context and call the next
handler. Parametrised by `a.ValidateToken` (the `auth` package is not
under `src/`). -/
def Authenticate (validateToken : String → Except String Claims) : Middleware :=
  fun handler ctx r s =>
    if (goSplitSpace r.authorization).length ≠ 2 ∨
        goToLower ((goSplitSpace r.authorization).headD "") ≠ "bearer" then
      (s, some (Err.requestError "expected authorization header format: bearer <token>" 401))
    else
      match validateToken ((goSplitSpace r.authorization).getD 1 "") with
      | Except.error e => (s, some (Err.requestError e 401))
      | Except.ok claims => handler (SetClaims ctx claims) r s

/-- The formatted message of the second `Authorize` failure
(`fmt.Errorf("you are not authorized for that action, claims[%v] roles[%v]", ...)`). -/
def notAuthorizedMsg (claims : Claims) (roles : List String) : String :=
  "you are not authorized for that action, claims[" ++ joinSp claims.roles ++
    "] roles[" ++ joinSp roles ++ "]"

/-- `mid.Authorize` (src/business/web/mid/auth.go): read the Claims from
the context (403 when absent), check `claims.Authorized(roles...)` (403
when false), otherwise pass through to the next handler unchanged. -/
def Authorize (roles : List String) : Middleware :=
  fun handler ctx r s =>
    match GetClaims ctx with
    | Except.error _ =>
      (s, some (Err.requestError "you are not authorized for that action, no claims" 403))
    | Except.ok claims =>
      if !(claims.Authorized roles) then
        (s, some (Err.requestError (notAuthorizedMsg claims roles) 403))
      else
        handler ctx r s

/-- The body of `mid.Logger` once `web.GetValues` has succeeded: log the
request start, run the next handler, log the completion, and return the
handler result unchanged. -/
def loggerSteps (v : Values) (handler : Handler) : Handler :=
  fun ctx r s =>
    let s1 := logEvent s (Event.logged
      ("request started traceid " ++ v.traceID ++ " method " ++ r.method ++ " path " ++ r.path))
    match handler ctx r s1 with
    | (s2, err) =>
      (logEvent s2 (Event.logged
        ("request completed traceid " ++ v.traceID ++ " method " ++ r.method ++ " path " ++ r.path)),
       err)

/-- `mid.Logger` (src/business/web/mid/logger.go): fetch the request
values (returning the lookup error when they are missing), else run
`loggerSteps`. -/
def Logger : Middleware :=
  fun handler ctx r s =>
    match GetValues ctx with
    | Except.error err => (s, some err)
    | Except.ok v => loggerSteps v handler ctx r s

/-- The switch on `validate.Cause(err)` in `mid.Errors`
(src/business/data/tests/tests.go): `validate.FieldErrors` becomes a 400
with the per-field messages, `*validate.RequestError` keeps its own
status and message, and everything else becomes a 500 whose body is the
generic `http.StatusText(http.StatusInternalServerError)`. (`Cause` is
the identity in this model: `Err` values carry no wrapping.) -/
def errorResponseFor (err : Err) : ErrorResponse × Nat :=
  match err with
  | .fieldErrors f => ({ error := "data validation error", fields := some f }, 400)
  | .requestError m st => ({ error := m, fields := none }, st)
  | _ => ({ error := "Internal Server Error", fields := none }, 500)

/-- The log line `mid.Errors` emits for an error coming out of the
chain. -/
def errorLogged (v : Values) (err : Err) : Event :=
  Event.logged ("ERROR traceid " ++ v.traceID ++ " ERROR " ++ errMessage err)

/-- The body of `mid.Errors` once `web.GetValues` has succeeded: run the
next handler; on error, log it, write the classified response, and
re-raise the error iff it is a shutdown error, otherwise stop its
propagation. -/
def errorsSteps (v : Values) (handler : Handler) : Handler :=
  fun ctx r s =>
    match handler ctx r s with
    | (s1, none) => (s1, none)
    | (s1, some err) =>
      let s2 := logEvent s1 (errorLogged v err)
      let s3 := Respond s2 (errorResponseFor err).1 (errorResponseFor err).2
      if IsShutdown err then (s3, some err) else (s3, none)

/-- `mid.Errors` (src/business/data/tests/tests.go): fetch the request
values (returning a shutdown error when they are missing), else run
`errorsSteps`. -/
def Errors : Middleware :=
  fun handler ctx r s =>
    match GetValues ctx with
    | Except.error _ => (s, some (NewShutdownError "web value missing from context"))
    | Except.ok v => errorsSteps v handler ctx r s

/-- Modelled from the spec: `foundation/web` `wrapMiddleware` is not
under `src/` (only its caller `App.Handle` is). Spec 4.5/9: the ordered
middleware list is applied by fold right, so the first middleware is the
outermost wrapper of the handler. -/
def wrapMiddleware (mw : List Middleware) (handler : Handler) : Handler :=
  mw.foldr (fun m h => m h) handler

/-- `web.App` (src/unnamed/part_001), restricted to the fields the
claims are about: the application-level middleware list. -/
structure App where
  mw : List Middleware

/-- `a.SignalShutdown()`: record that graceful shutdown was requested. -/
def signalShutdown (s : St) : St :=
  { s with shutdown := true }

/-- The effective handler `App.Handle` registers on the mux: per-route
middleware is wrapped around the handler first, then the application
middleware is wrapped around the result. -/
def App.effectiveHandler (a : App) (routeMw : List Middleware) (handler : Handler) : Handler :=
  wrapMiddleware a.mw (wrapMiddleware routeMw handler)

/-- The request context `App.Handle` builds before invoking the chain:
the `Values` (trace ID from the request span, start time) are stored; no
claims are present yet. -/
def App.requestContext (traceID : String) (now : Nat) : Ctx :=
  { values := some { traceID := traceID, now := now, statusCode := 0 }, claims := none }

/-- The anonymous base handler of `App.Handle` (src/unnamed/part_001):
store the `Values` in the context, invoke the composed middleware chain,
and signal shutdown exactly when the chain returns a non-nil error. -/
def App.Handle (a : App) (routeMw : List Middleware) (handler : Handler)
    (traceID : String) (now : Nat) (r : Req) (s : St) : St :=
  match a.effectiveHandler routeMw handler (App.requestContext traceID now) r s with
  | (s1, some _) => signalShutdown s1
  | (s1, none) => s1

/-- A marker middleware as in spec section 8: append a pre marker, run
the inner handler, append a post marker. -/
def markerMw (name : String) : Middleware :=
  fun handler ctx r s =>
    let s1 := logEvent s (Event.pre name)
    match handler ctx r s1 with
    | (s2, e) => (logEvent s2 (Event.post name), e)

/-- A marker base handler: append a run marker and succeed. -/
def markerHandler (name : String) : Handler :=
  fun _ _ s => (logEvent s (Event.handlerRun name), none)

/-!
Abstract token codec.

Modelled from the spec: the Token Codec / Authenticator
(`business/sys/auth`) is not under `src/`; only its callers
(`mid/auth.go`, `tests.go`) and the analogous `GenToken` tool
(`app/tooling/admin/main.go`, which signs RS256 with a `kid` header and
re-parses with `ValidMethods: ["RS256"]`) are. Spec 4.2 describes
`encode`/`decode`. The RSA primitive is abstracted: a key pair is
identified by a seed, signing records the seed and the signed payload,
and verification checks that the signature was produced by the private
counterpart of the given public key over the given payload.
-/

/-- An RSA private key, abstracted to its generation seed. -/
structure PrivateKey where
  seed : Nat
deriving DecidableEq

/-- An RSA public key, abstracted to its generation seed. -/
structure PublicKey where
  seed : Nat
deriving DecidableEq

/-- The public counterpart of a private key. -/
def PrivateKey.publicKey (k : PrivateKey) : PublicKey :=
  { seed := k.seed }

/-- An abstract signature: which key pair produced it and over which
payload. -/
structure Signature where
  keySeed : Nat
  signedPayload : Claims
deriving DecidableEq

/-- Signing with a private key. -/
def sign (k : PrivateKey) (payload : Claims) : Signature :=
  { keySeed := k.seed, signedPayload := payload }

/-- Signature verification against a public key: valid iff produced by
the matching private key over this payload. -/
def verifySig (k : PublicKey) (payload : Claims) (sig : Signature) : Bool :=
  sig.keySeed == k.seed && sig.signedPayload == payload

/-- A signed token: header (`alg`, `kid`), payload, signature. -/
structure Token where
  alg : String
  kid : String
  payload : Claims
  sig : Signature
deriving DecidableEq

/-- Token decode failures, per spec sections 4.2 and 7. -/
inductive DecodeErr where
  | encodingError
  | unsupportedAlgorithm
  | unknownKey
  | signatureInvalid
  | expired
deriving DecidableEq

/-- Modelled from the spec (4.2): serialize the Claims into the payload,
embed the key-ID in the header, sign with the private key using the fixed
RS256 scheme; fail with an encoding error when the claims are
structurally invalid (missing subject). -/
def encode (claims : Claims) (key : PrivateKey) (kid : String) : Except DecodeErr Token :=
  if claims.subject = "" then
    Except.error DecodeErr.encodingError
  else
    Except.ok { alg := "RS256", kid := kid, payload := claims, sig := sign key claims }

/-- Modelled from the spec (4.2): check the algorithm against the
allow-list (only RS256, as in the repository's parsers), resolve the
public key by the header key-ID, verify the signature, reject expired
tokens (current time past `expiresAt`), and return the Claims. -/
def decode (now : Nat) (tok : Token) (keyLookup : String → Option PublicKey) :
    Except DecodeErr Claims :=
  if tok.alg ≠ "RS256" then
    Except.error DecodeErr.unsupportedAlgorithm
  else
    match keyLookup tok.kid with
    | none => Except.error DecodeErr.unknownKey
    | some pub =>
      if !(verifySig pub tok.payload tok.sig) then
        Except.error DecodeErr.signatureInvalid
      else if tok.payload.expiresAt < now then
        Except.error DecodeErr.expired
      else
        Except.ok tok.payload

/-! Concrete fixtures (used by witnesses and counterexamples). -/

/-- The claims the admin `GenToken` tool builds (subject `user-id-123`,
issuer `service project`, the `ADMIN` role), with small abstract
instants. -/
def claims0 : Claims :=
  { subject := "user-id-123", issuer := "service project", issuedAt := 0,
    expiresAt := 100, roles := ["ADMIN"] }

/-- Request-scoped values fixture. -/
def v0 : Values :=
  { traceID := "trace-1", now := 0, statusCode := 0 }

/-- A request carrying a well-formed bearer header. -/
def req0 : Req :=
  { authorization := "Bearer tok", method := "GET", path := "/v1/testauth" }

/-- A request with no `Authorization` header (`Header.Get` yields ""). -/
def reqNoAuth : Req :=
  { authorization := "", method := "GET", path := "/v1/test" }

/-- The empty starting state. -/
def st0 : St :=
  { events := [], shutdown := false }

/-- A fresh context with neither values nor claims. -/
def ctx0 : Ctx :=
  { values := none, claims := none }

/-- A context the transport layer initialised (values set, no claims). -/
def ctxV : Ctx :=
  { values := some v0, claims := none }

/-- A context after successful authentication (values and claims set). -/
def ctxC : Ctx :=
  { values := some v0, claims := some claims0 }

/-- A token validator accepting exactly the token `tok` as `claims0`. -/
def vt0 : String → Except String Claims :=
  fun t => if t = "tok" then Except.ok claims0 else Except.error "token invalid"

/-- A handler failing with a fixed error, leaving the state untouched. -/
def constErrHandler (err : Err) : Handler :=
  fun _ _ s => (s, some err)

/-- The `testgrp.Test` untrusted-error branch: a plain `errors.New`. -/
def hBoom : Handler :=
  constErrHandler (Err.basic "untrusted error")

/-- The `testgrp.Test` shutdown-error branch: `web.NewShutdownError`. -/
def hShut : Handler :=
  constErrHandler (Err.shutdown "restart service")

/-- Active key-ID fixture (the `kid` the admin tool embeds). -/
def kid0 : String := "54bb2165-71e1-41a6-af3e-7da4a0e1e2c1"

/-- Private key fixture. -/
def key0 : PrivateKey := { seed := 1 }

/-- Key lookup fixture mapping `kid0` to the matching public key. -/
def lookup0 : String → Option PublicKey :=
  fun k => if k = kid0 then some key0.publicKey else none

/-- The token `encode claims0 key0 kid0` produces. -/
def tok0 : Token :=
  { alg := "RS256", kid := kid0, payload := claims0, sig := sign key0 claims0 }

/-! Claim theorems. -/

/-- C1: for middlewares `[m1, ..., mn]` registered in that order and base
handler `h`, `App.Handle` builds `m1(m2(...mn(h)))` — the first-registered
middleware is outermost; application-level middleware wraps outside
per-route middleware; and with markers `[A, B]` around handler `H` the
observed order is A-pre, B-pre, H, B-post, A-post. -/
theorem web_middleware_composition_order :
    (∀ (m : Middleware) (mws : List Middleware) (h : Handler),
      wrapMiddleware (m :: mws) h = m (wrapMiddleware mws h))
    ∧ (∀ (a : App) (routeMw : List Middleware) (h : Handler),
      a.effectiveHandler routeMw h = wrapMiddleware (a.mw ++ routeMw) h)
    ∧ (∀ (ctx : Ctx) (r : Req),
      wrapMiddleware [markerMw "A", markerMw "B"] (markerHandler "H") ctx r st0 =
        ({ events := [Event.pre "A", Event.pre "B", Event.handlerRun "H",
                      Event.post "B", Event.post "A"],
           shutdown := false }, none)) := by
  refine ⟨fun m mws h => rfl, ?_, fun ctx r => rfl⟩
  intro a routeMw h
  simp [App.effectiveHandler, wrapMiddleware, List.foldr_append]

/-- C2: whenever the `Authorization` header does not consist of exactly
two space-separated parts with the first equal (case-insensitively) to
"bearer" — including a missing or empty header — `Authenticate` returns a
RequestError with status 401 and does not invoke the inner handler (the
result is the same for every inner handler and the state is untouched). -/
theorem mid_authenticate_rejects_malformed_header
    (vt : String → Except String Claims) (handler : Handler)
    (ctx : Ctx) (r : Req) (s : St)
    (h : (goSplitSpace r.authorization).length ≠ 2 ∨
      goToLower ((goSplitSpace r.authorization).headD "") ≠ "bearer") :
    Authenticate vt handler ctx r s =
      (s, some (Err.requestError "expected authorization header format: bearer <token>" 401)) := by
  simp only [Authenticate]
  rw [if_pos h]

/-- C2 witness: the empty (missing) header is malformed and yields the
401 RequestError. -/
theorem mid_authenticate_rejects_malformed_header_witness :
    ((goSplitSpace reqNoAuth.authorization).length ≠ 2 ∨
      goToLower ((goSplitSpace reqNoAuth.authorization).headD "") ≠ "bearer")
    ∧ Authenticate vt0 (markerHandler "H") ctx0 reqNoAuth st0 =
      (st0, some (Err.requestError "expected authorization header format: bearer <token>" 401)) :=
  ⟨by decide,
   mid_authenticate_rejects_malformed_header vt0 (markerHandler "H") ctx0 reqNoAuth st0 (by decide)⟩

/-- C3: on a well-formed bearer header, `Authenticate` returns a 401
RequestError wrapping the validation error when `ValidateToken` fails
(without invoking the inner handler), and on success invokes the inner
handler with the Claims attached to the context. -/
theorem mid_authenticate_validate_and_pass
    (vt : String → Except String Claims) (handler : Handler)
    (ctx : Ctx) (r : Req) (s : St) (scheme token : String)
    (hp : goSplitSpace r.authorization = [scheme, token])
    (hb : goToLower scheme = "bearer") :
    (∀ e, vt token = Except.error e →
      Authenticate vt handler ctx r s = (s, some (Err.requestError e 401)))
    ∧ (∀ c, vt token = Except.ok c →
      Authenticate vt handler ctx r s = handler (SetClaims ctx c) r s) := by
  constructor
  · intro e he
    simp [Authenticate, hp, hb, he]
  · intro c hc
    simp [Authenticate, hp, hb, hc]

/-- C3 witness: `Bearer tok` validates to `claims0` and the inner handler
runs with the enriched context. -/
theorem mid_authenticate_validate_and_pass_witness :
    goSplitSpace req0.authorization = ["Bearer", "tok"]
    ∧ goToLower "Bearer" = "bearer"
    ∧ vt0 "tok" = Except.ok claims0
    ∧ Authenticate vt0 (markerHandler "H") ctx0 req0 st0 =
      markerHandler "H" (SetClaims ctx0 claims0) req0 st0 :=
  ⟨rfl, rfl, rfl,
   (mid_authenticate_validate_and_pass vt0 (markerHandler "H") ctx0 req0 st0
     "Bearer" "tok" rfl rfl).2 claims0 rfl⟩

/-- C4: `Authorize` returns a 403 RequestError without invoking the inner
handler when no Claims are in the context, returns a 403 RequestError
without invoking the inner handler when the Claims are not authorized for
the required roles, and otherwise invokes the inner handler with context,
writer state and request unchanged. -/
theorem mid_authorize_claims_gate
    (roles : List String) (handler : Handler) (ctx : Ctx) (r : Req) (s : St) :
    (ctx.claims = none →
      Authorize roles handler ctx r s =
        (s, some (Err.requestError "you are not authorized for that action, no claims" 403)))
    ∧ (∀ c, ctx.claims = some c → c.Authorized roles = false →
      Authorize roles handler ctx r s =
        (s, some (Err.requestError (notAuthorizedMsg c roles) 403)))
    ∧ (∀ c, ctx.claims = some c → c.Authorized roles = true →
      Authorize roles handler ctx r s = handler ctx r s) := by
  refine ⟨?_, ?_, ?_⟩
  · intro hn
    simp [Authorize, GetClaims, hn]
  · intro c hc hf
    simp [Authorize, GetClaims, hc, hf]
  · intro c hc ht
    simp [Authorize, GetClaims, hc, ht]

/-- C4 witness: a context carrying ADMIN claims passes the ADMIN gate
and the inner handler runs unchanged. -/
theorem mid_authorize_claims_gate_witness :
    ctxC.claims = some claims0
    ∧ Claims.Authorized claims0 ["ADMIN"] = true
    ∧ Authorize ["ADMIN"] (markerHandler "H") ctxC req0 st0 =
      markerHandler "H" ctxC req0 st0 :=
  ⟨rfl, by decide,
   (mid_authorize_claims_gate ["ADMIN"] (markerHandler "H") ctxC req0 st0).2.2
     claims0 rfl (by decide)⟩

/-- C5: for every error returned by an inner handler (values present),
`Errors` logs it and writes the classified response: field-validation
errors yield 400 with the per-field messages, RequestErrors yield their
carried status and message, and any other error yields 500 whose
client-visible body is the generic status text, the underlying message
appearing only in the server-side log event. -/
theorem mid_errors_classification
    (handler : Handler) (ctx : Ctx) (r : Req) (s : St)
    (v : Values) (s1 : St) (err : Err)
    (hv : ctx.values = some v) (hh : handler ctx r s = (s1, some err)) :
    Errors handler ctx r s =
      (Respond (logEvent s1 (errorLogged v err))
        (errorResponseFor err).1 (errorResponseFor err).2,
       if IsShutdown err then some err else none)
    ∧ (∀ f, errorResponseFor (Err.fieldErrors f) =
        ({ error := "data validation error", fields := some f }, 400))
    ∧ (∀ m st, errorResponseFor (Err.requestError m st) =
        ({ error := m, fields := none }, st))
    ∧ (∀ m, errorResponseFor (Err.basic m) =
        ({ error := "Internal Server Error", fields := none }, 500))
    ∧ (∀ m, errorResponseFor (Err.shutdown m) =
        ({ error := "Internal Server Error", fields := none }, 500)) := by
  refine ⟨?_, fun f => rfl, fun m st => rfl, fun m => rfl, fun m => rfl⟩
  cases hIs : IsShutdown err <;>
    simp [Errors, GetValues, hv, errorsSteps, hh, hIs]

/-- C5 witness: an untrusted `errors.New` error is answered with the
generic 500 response and is not re-raised. -/
theorem mid_errors_classification_witness :
    Errors hBoom ctxV req0 st0 =
      (Respond (logEvent st0 (errorLogged v0 (Err.basic "untrusted error")))
        (errorResponseFor (Err.basic "untrusted error")).1
        (errorResponseFor (Err.basic "untrusted error")).2,
       if IsShutdown (Err.basic "untrusted error")
         then some (Err.basic "untrusted error") else none) :=
  (mid_errors_classification hBoom ctxV req0 st0 v0 st0
    (Err.basic "untrusted error") rfl rfl).1

/-- C6: `Errors` re-raises an inner error (after writing the response)
iff it is a shutdown error; the base handler of `App.Handle` signals
shutdown exactly when a non-nil error reaches it; hence in the
Logger-then-Errors wiring an inner error triggers service shutdown iff it
is shutdown-flagged. -/
theorem mid_errors_shutdown_propagation :
    (∀ (handler : Handler) (ctx : Ctx) (r : Req) (s : St)
        (v : Values) (s1 : St) (err : Err),
      ctx.values = some v → handler ctx r s = (s1, some err) →
      (Errors handler ctx r s).2 = if IsShutdown err then some err else none)
    ∧ (∀ (a : App) (routeMw : List Middleware) (handler : Handler)
        (tid : String) (now : Nat) (r : Req) (s s1 : St) (e : Option Err),
      a.effectiveHandler routeMw handler (App.requestContext tid now) r s = (s1, e) →
      a.Handle routeMw handler tid now r s = if e.isSome then signalShutdown s1 else s1)
    ∧ (∀ (err : Err) (tid : String) (now : Nat) (r : Req),
      ((App.mk [Logger, Errors]).Handle [] (constErrHandler err) tid now r st0).shutdown =
        IsShutdown err) := by
  refine ⟨?_, ?_, ?_⟩
  · intro handler ctx r s v s1 err hv hh
    cases hIs : IsShutdown err <;>
      simp [Errors, GetValues, hv, errorsSteps, hh, hIs]
  · intro a routeMw handler tid now r s s1 e heff
    cases e <;> simp [App.Handle, heff]
  · intro err tid now r
    cases hIs : IsShutdown err <;>
      simp [App.Handle, App.effectiveHandler, wrapMiddleware, Logger, Errors,
        loggerSteps, errorsSteps, GetValues, App.requestContext, constErrHandler,
        hIs, signalShutdown, logEvent, Respond, st0]

/-- C6 witness: a shutdown-flagged error is re-raised by `Errors` after
the response is written. -/
theorem mid_errors_shutdown_propagation_witness :
    (Errors hShut ctxV req0 st0).2 =
      if IsShutdown (Err.shutdown "restart service")
        then some (Err.shutdown "restart service") else none :=
  mid_errors_shutdown_propagation.1 hShut ctxV req0 st0 v0 st0
    (Err.shutdown "restart service") rfl rfl

/-- C7 counterexample to the claim as stated: with the request-scoped
context values missing and an inner handler returning an error, `Errors`
re-raises a shutdown error having written no response at all (the state
is returned untouched), so no response is written before the re-raise. -/
theorem mid_errors_missing_values_no_response_cex :
    hBoom ctx0 reqNoAuth st0 = (st0, some (Err.basic "untrusted error"))
    ∧ Errors hBoom ctx0 reqNoAuth st0 =
        (st0, some (Err.shutdown "web value missing from context"))
    ∧ responseCount (Errors hBoom ctx0 reqNoAuth st0).1 = 0 :=
  ⟨rfl, rfl, rfl⟩

/-- C7 (amended): when the request-scoped values are present, `Errors`
writes exactly one additional response for an erroring inner handler —
including shutdown-flagged errors, where the response is written before
the re-raise; when the values are missing, `Errors` re-raises a shutdown
error without writing any response. -/
theorem mid_errors_writes_one_response
    (handler : Handler) (ctx : Ctx) (r : Req) (s : St) :
    (∀ (v : Values) (s1 : St) (err : Err),
      ctx.values = some v → handler ctx r s = (s1, some err) →
      responseCount (Errors handler ctx r s).1 = responseCount s1 + 1)
    ∧ (ctx.values = none →
      Errors handler ctx r s =
        (s, some (Err.shutdown "web value missing from context"))) := by
  constructor
  · intro v s1 err hv hh
    cases hIs : IsShutdown err <;>
      simp [Errors, GetValues, hv, errorsSteps, hh, hIs, Respond, logEvent,
        responseCount, errorLogged, List.filter_append]
  · intro hv
    simp [Errors, GetValues, hv, NewShutdownError]

/-- C7 witness (amended claim): with values present, a shutdown-flagged
inner error still produces exactly one written response. -/
theorem mid_errors_writes_one_response_witness :
    responseCount (Errors hShut ctxV req0 st0).1 = responseCount st0 + 1 :=
  (mid_errors_writes_one_response hShut ctxV req0 st0).1 v0 st0
    (Err.shutdown "restart service") rfl rfl

/-- C8: `Claims.Authorized` is true iff the claims' role set intersects
the required role set (the empty required set being excluded by
precondition). -/
theorem claims_authorized_iff_intersect
    (c : Claims) (R : List String) (_hR : R ≠ []) :
    c.Authorized R = true ↔ ∃ role, role ∈ c.roles ∧ role ∈ R := by
  simp only [Claims.Authorized, List.any_eq_true, beq_iff_eq]
  constructor
  · rintro ⟨x, hx, y, hy, hxy⟩
    exact ⟨x, hx, hxy ▸ hy⟩
  · rintro ⟨x, hx, hxR⟩
    exact ⟨x, hx, x, hxR, rfl⟩

/-- C8 witness: instantiated at the seeded ADMIN claims and the ADMIN
requirement. -/
theorem claims_authorized_iff_intersect_witness :
    (["ADMIN"] : List String) ≠ []
    ∧ (Claims.Authorized claims0 ["ADMIN"] = true ↔
        ∃ role, role ∈ claims0.roles ∧ role ∈ (["ADMIN"] : List String)) :=
  ⟨by decide, claims_authorized_iff_intersect claims0 ["ADMIN"] (by decide)⟩

/-- C9: encoding structurally valid Claims whose expiry lies in the
future under key-ID `kid`, then decoding with a lookup mapping `kid` to
the matching public key, returns the original Claims. -/
theorem token_encode_decode_roundtrip
    (claims : Claims) (key : PrivateKey) (kid : String)
    (keyLookup : String → Option PublicKey) (tok : Token) (now : Nat)
    (hs : claims.subject ≠ "")
    (hfut : now < claims.expiresAt)
    (henc : encode claims key kid = Except.ok tok)
    (hl : keyLookup kid = some key.publicKey) :
    decode now tok keyLookup = Except.ok claims := by
  simp only [encode, if_neg hs] at henc
  cases henc
  simp [decode, hl, verifySig, sign, PrivateKey.publicKey, Nat.lt_asymm hfut]

/-- C9 witness: the admin-tool claims round-trip through the codec under
`kid0`. -/
theorem token_encode_decode_roundtrip_witness :
    claims0.subject ≠ ""
    ∧ (0 : Nat) < claims0.expiresAt
    ∧ encode claims0 key0 kid0 = Except.ok tok0
    ∧ decode 0 tok0 lookup0 = Except.ok claims0 :=
  ⟨by decide, by decide, rfl,
   token_encode_decode_roundtrip claims0 key0 kid0 lookup0 tok0 0
     (by decide) (by decide) rfl rfl⟩

/-- C10: `App.Handle` stores the `Values` (trace ID, start time) in the
context before the composed chain is invoked, so `GetValues` succeeds on
that context, and on any values-bearing context both `Logger` and
`Errors` take their normal paths — their missing-values branches are
unreachable under this wiring. -/
theorem app_handle_values_before_chain :
    (∀ (tid : String) (now : Nat),
      (App.requestContext tid now).values =
        some { traceID := tid, now := now, statusCode := 0 })
    ∧ (∀ (tid : String) (now : Nat),
      GetValues (App.requestContext tid now) =
        Except.ok { traceID := tid, now := now, statusCode := 0 })
    ∧ (∀ (a : App) (routeMw : List Middleware) (handler : Handler)
        (tid : String) (now : Nat) (r : Req) (s : St),
      a.Handle routeMw handler tid now r s =
        match a.effectiveHandler routeMw handler (App.requestContext tid now) r s with
        | (s1, some _) => signalShutdown s1
        | (s1, none) => s1)
    ∧ (∀ (handler : Handler) (ctx : Ctx) (r : Req) (s : St) (v : Values),
      ctx.values = some v → Logger handler ctx r s = loggerSteps v handler ctx r s)
    ∧ (∀ (handler : Handler) (ctx : Ctx) (r : Req) (s : St) (v : Values),
      ctx.values = some v → Errors handler ctx r s = errorsSteps v handler ctx r s) := by
  refine ⟨fun tid now => rfl, fun tid now => rfl,
    fun a routeMw handler tid now r s => rfl, ?_, ?_⟩
  · intro handler ctx r s v hv
    simp [Logger, GetValues, hv]
  · intro handler ctx r s v hv
    simp [Errors, GetValues, hv]

/-- C10 witness: on the context built by `App.Handle`, `Logger` takes its
normal path. -/
theorem app_handle_values_before_chain_witness :
    Logger (markerHandler "H") (App.requestContext "trace-1" 0) req0 st0 =
      loggerSteps { traceID := "trace-1", now := 0, statusCode := 0 }
        (markerHandler "H") (App.requestContext "trace-1" 0) req0 st0 :=
  app_handle_values_before_chain.2.2.2.1 (markerHandler "H")
    (App.requestContext "trace-1" 0) req0 st0
    { traceID := "trace-1", now := 0, statusCode := 0 } rfl

end GoService
